import Mathlib

/-!
Verification of the rSAS RK4 integrator (`src/rsas/_rsas.pyx`, `_solve_RK4`).

The integrator is embedded shallowly over the rationals.  Age-indexed buffers
are total functions `Nat → ℚ`; only indices below the substep-resolved age
count `M = max_age * n_substeps` (resp. `M + 1` for cumulative buffers) are
meaningful, matching the numpy array extents.  The in-place mutation of the
source is made explicit: each intermediate version of a buffer inside one
substep is its own definition, named after the source variable and the RK4
stage that produced it (the source reuses `sTt`, `pQt`, `STt`, `mSt` across
stages; here they become `sTt1..sTt4`, `pQt1..pQt4`, `STt1..STt3`,
`mSt1..mSt3`).  The SAS function of each outflow is a parameter
`cdf q profile i a`, mirroring `rSAS_fun[q].cdf_i(profile, i)[a]`.
-/

namespace RSAS

/-- Finite sum of the first `n` values of `f`, mirroring `np.sum`/`np.dot`
over an axis of length `n`. -/
def sumTo (f : Nat → ℚ) : Nat → ℚ
  | 0 => 0
  | n+1 => sumTo f n + f n

/-- Executable binary maximum on the rationals (`np.maximum`). -/
def qmax (x y : ℚ) : ℚ := if x ≤ y then y else x

/-- Executable binary minimum on the rationals (`np.minimum` / clipping). -/
def qmin (x y : ℚ) : ℚ := if x ≤ y then x else y

/-- The inputs `_solve_RK4` receives from `solve` after normalization, with
the SAS functions abstracted as `cdf`.  `ST_init` is the supplied initial
age-ranked storage profile (the `None` case is handled separately by
`runRK4`); `hasCS` records whether `CS_init` was supplied. -/
structure Input where
  numflux : Nat
  numsol : Nat
  nT : Nat
  max_age : Nat
  n_substeps : Nat
  dt : ℚ
  J : Nat → ℚ
  Q : Nat → Nat → ℚ
  cdf : Nat → (Nat → ℚ) → Nat → Nat → ℚ
  ST_init : Nat → ℚ
  hasCS : Bool
  CS_init : Nat → Nat → ℚ
  C_J : Nat → Nat → ℚ
  alpha : Nat → Nat → Nat → ℚ
  k1 : Nat → Nat → ℚ
  C_eq : Nat → Nat → ℚ
  C_old : Nat → ℚ

/-- Substep-resolved number of ages, `M = max_age * n_substeps` (line 295). -/
def Input.M (inp : Input) : Nat := inp.max_age * inp.n_substeps

/-- Substep length `h = dt / n_substeps` (line 296). -/
def Input.h (inp : Input) : ℚ := inp.dt / (inp.n_substeps : ℚ)

/-- State carried from one substep to the next: the two swapped storage
buffers (`STn, STp = STp, STn`, line 367), the age-increment buffer `sTn`,
the age-ranked solute mass `mSn`, and the combined distribution `PQn`
(whose row 0 is only ever written at initialization or by the zero-flow
forcing, lines 430-432). -/
structure SubState where
  STp : Nat → ℚ
  STn : Nat → ℚ
  sTn : Nat → ℚ
  mSn : Nat → Nat → ℚ
  PQn : Nat → Nat → ℚ

/-- Previous-substep solute mass shifted one age older (lines 371-372):
`mSp[1:M] = mSn[0:M-1]`, `mSp[0] = 0`. -/
def mSp (st : SubState) (a s : Nat) : ℚ :=
  if a = 0 then 0 else st.mSn (a-1) s

/-- Stage-1 age increments (lines 368-369): `sTt = np.roll(sTn, 1)` with the
freshest slot set to `h * J[i]`. -/
def sTt1 (inp : Input) (i : Nat) (st : SubState) (a : Nat) : ℚ :=
  if a = 0 then inp.h * inp.J i else st.sTn (a-1)

/-- Stage-1 cumulative distribution (line 375): `PQ1[:,q] = cdf_i(STp, i)`,
where `STp` is the swapped-in previous profile, i.e. the `STn` of the
incoming state. -/
def PQ1 (inp : Input) (i : Nat) (st : SubState) (a q : Nat) : ℚ :=
  inp.cdf q st.STn i a

/-- Stage-1 per-age density (lines 376-377): forward difference of `PQ1`,
with `pQt[0,:] = PQ1[0,:]`. -/
def pQt1 (inp : Input) (i : Nat) (st : SubState) (a q : Nat) : ℚ :=
  if a = 0 then PQ1 inp i st 0 q else PQ1 inp i st a q - PQ1 inp i st (a-1) q

/-- Stage-1 solute mass flux (line 380):
`np.where(sTt>0, mSp * alpha * Q * pQt / sTt, 0)`. -/
def mQ1 (inp : Input) (i : Nat) (st : SubState) (a q s : Nat) : ℚ :=
  if 0 < sTt1 inp i st a then
    mSp st a s * inp.alpha i q s * inp.Q i q * pQt1 inp i st a q / sTt1 inp i st a
  else 0

/-- Trial storage profile after stage 1 (line 381):
`STt = np.maximum(0, STp + (J[i] - Q[i,:] . PQ1) * h/2)`. -/
def STt1 (inp : Input) (i : Nat) (st : SubState) (a : Nat) : ℚ :=
  qmax 0 (st.STn a + (inp.J i - sumTo (fun q => inp.Q i q * PQ1 inp i st a q) inp.numflux) * (inp.h / 2))

/-- Stage-1 reaction flux (line 383): `mR1 = k1 * (C_eq * sTt - mSp)`. -/
def mR1 (inp : Input) (i : Nat) (st : SubState) (a s : Nat) : ℚ :=
  inp.k1 i s * (inp.C_eq i s * sTt1 inp i st a - mSp st a s)

/-- Trial solute mass after stage 1 (lines 384-385), with the inflowing mass
`J * C_J * h/2` injected at the freshest age slot. -/
def mSt1 (inp : Input) (i : Nat) (st : SubState) (a s : Nat) : ℚ :=
  mSp st a s - sumTo (fun q => mQ1 inp i st a q s) inp.numflux * (inp.h / 2)
    + mR1 inp i st a s * (inp.h / 2)
    + (if a = 0 then inp.J i * inp.C_J i s * (inp.h / 2) else 0)

/-- Stage-2 cumulative distribution (line 388): `cdf_i` at the stage-1 trial
profile. -/
def PQ2 (inp : Input) (i : Nat) (st : SubState) (a q : Nat) : ℚ :=
  inp.cdf q (STt1 inp i st) i a

/-- Stage-2 age increments (lines 389-390): differences of the stage-1 trial
profile, `sTt[0] = STt[0]`. -/
def sTt2 (inp : Input) (i : Nat) (st : SubState) (a : Nat) : ℚ :=
  if a = 0 then STt1 inp i st 0 else STt1 inp i st a - STt1 inp i st (a-1)

/-- Stage-2 per-age density (lines 391-392): forward difference of `PQ2`,
with `pQt[0,:] = PQ2[0,:]`. -/
def pQt2 (inp : Input) (i : Nat) (st : SubState) (a q : Nat) : ℚ :=
  if a = 0 then PQ2 inp i st 0 q else PQ2 inp i st a q - PQ2 inp i st (a-1) q

/-- Stage-2 solute mass flux (line 395). -/
def mQ2 (inp : Input) (i : Nat) (st : SubState) (a q s : Nat) : ℚ :=
  if 0 < sTt2 inp i st a then
    mSt1 inp i st a s * inp.alpha i q s * inp.Q i q * pQt2 inp i st a q / sTt2 inp i st a
  else 0

/-- Trial storage profile after stage 2 (line 396). -/
def STt2 (inp : Input) (i : Nat) (st : SubState) (a : Nat) : ℚ :=
  qmax 0 (st.STn a + (inp.J i - sumTo (fun q => inp.Q i q * PQ2 inp i st a q) inp.numflux) * (inp.h / 2))

/-- Stage-2 reaction flux (line 398), using the stage-1 trial mass. -/
def mR2 (inp : Input) (i : Nat) (st : SubState) (a s : Nat) : ℚ :=
  inp.k1 i s * (inp.C_eq i s * sTt2 inp i st a - mSt1 inp i st a s)

/-- Trial solute mass after stage 2 (lines 399-400), half-weighted inflow. -/
def mSt2 (inp : Input) (i : Nat) (st : SubState) (a s : Nat) : ℚ :=
  mSp st a s - sumTo (fun q => mQ2 inp i st a q s) inp.numflux * (inp.h / 2)
    + mR2 inp i st a s * (inp.h / 2)
    + (if a = 0 then inp.J i * inp.C_J i s * (inp.h / 2) else 0)

/-- Stage-3 cumulative distribution (line 403): `cdf_i` at the stage-2 trial
profile. -/
def PQ3 (inp : Input) (i : Nat) (st : SubState) (a q : Nat) : ℚ :=
  inp.cdf q (STt2 inp i st) i a

/-- Stage-3 age increments (lines 404-405): differences of the stage-2 trial
profile. -/
def sTt3 (inp : Input) (i : Nat) (st : SubState) (a : Nat) : ℚ :=
  if a = 0 then STt2 inp i st 0 else STt2 inp i st a - STt2 inp i st (a-1)

/-- Stage-3 per-age density (lines 406-407).  The source sets the freshest
slot to `PQ2[0,:]`, not `PQ3[0,:]`: `pQt[1:,:] = np.diff(PQ3[0:M,:])` but
`pQt[0,:] = PQ2[0,:]`. -/
def pQt3 (inp : Input) (i : Nat) (st : SubState) (a q : Nat) : ℚ :=
  if a = 0 then PQ2 inp i st 0 q else PQ3 inp i st a q - PQ3 inp i st (a-1) q

/-- Stage-3 solute mass flux (line 410). -/
def mQ3 (inp : Input) (i : Nat) (st : SubState) (a q s : Nat) : ℚ :=
  if 0 < sTt3 inp i st a then
    mSt2 inp i st a s * inp.alpha i q s * inp.Q i q * pQt3 inp i st a q / sTt3 inp i st a
  else 0

/-- Trial storage profile after stage 3 (line 411). -/
def STt3 (inp : Input) (i : Nat) (st : SubState) (a : Nat) : ℚ :=
  qmax 0 (st.STn a + (inp.J i - sumTo (fun q => inp.Q i q * PQ3 inp i st a q) inp.numflux) * (inp.h / 2))

/-- Stage-3 reaction flux (line 413), using the stage-2 trial mass. -/
def mR3 (inp : Input) (i : Nat) (st : SubState) (a s : Nat) : ℚ :=
  inp.k1 i s * (inp.C_eq i s * sTt3 inp i st a - mSt2 inp i st a s)

/-- Trial solute mass after stage 3 (lines 414-415): here the inflowing mass
is injected with the full weight `h` (line 415), unlike stages 1-2. -/
def mSt3 (inp : Input) (i : Nat) (st : SubState) (a s : Nat) : ℚ :=
  mSp st a s - sumTo (fun q => mQ3 inp i st a q s) inp.numflux * (inp.h / 2)
    + mR3 inp i st a s * (inp.h / 2)
    + (if a = 0 then inp.J i * inp.C_J i s * inp.h else 0)

/-- Stage-4 cumulative distribution (line 418): `cdf_i` at the stage-3 trial
profile. -/
def PQ4 (inp : Input) (i : Nat) (st : SubState) (a q : Nat) : ℚ :=
  inp.cdf q (STt3 inp i st) i a

/-- Stage-4 age increments (lines 419-420): differences of the stage-3 trial
profile. -/
def sTt4 (inp : Input) (i : Nat) (st : SubState) (a : Nat) : ℚ :=
  if a = 0 then STt3 inp i st 0 else STt3 inp i st a - STt3 inp i st (a-1)

/-- Stage-4 per-age density (lines 421-422).  As at stage 3, the freshest
slot is set from `PQ2[0,:]`, not `PQ4[0,:]`. -/
def pQt4 (inp : Input) (i : Nat) (st : SubState) (a q : Nat) : ℚ :=
  if a = 0 then PQ2 inp i st 0 q else PQ4 inp i st a q - PQ4 inp i st (a-1) q

/-- Stage-4 solute mass flux (line 425). -/
def mQ4 (inp : Input) (i : Nat) (st : SubState) (a q s : Nat) : ℚ :=
  if 0 < sTt4 inp i st a then
    mSt3 inp i st a s * inp.alpha i q s * inp.Q i q * pQt4 inp i st a q / sTt4 inp i st a
  else 0

/-- Stage-4 reaction flux (line 427), using the stage-3 trial mass. -/
def mR4 (inp : Input) (i : Nat) (st : SubState) (a s : Nat) : ℚ :=
  inp.k1 i s * (inp.C_eq i s * sTt4 inp i st a - mSt3 inp i st a s)

/-- Combined distribution after a substep (lines 429-432):
`PQn[1:M+1,:] = (PQ1 + 2 PQ2 + 2 PQ3 + PQ4)[:M,:] / 6` (note the shift by one
age), row 0 keeps its previous value, and any outflow with `Q[i,q] == 0` is
forced to exactly 0 in every row. -/
def PQnNew (inp : Input) (i : Nat) (st : SubState) (a q : Nat) : ℚ :=
  if inp.Q i q = 0 then 0
  else if a = 0 then st.PQn 0 q
  else (PQ1 inp i st (a-1) q + 2 * PQ2 inp i st (a-1) q + 2 * PQ3 inp i st (a-1) q
        + PQ4 inp i st (a-1) q) / 6

/-- True storage profile after a substep (line 433):
`STn[1:M+1] = STp[0:M] + h * (J[i] - Q[i,:] . PQn[1:M+1,:])`, with no clamp.
Row 0 is the never-rewritten row 0 of the buffer swapped in at this substep,
i.e. the `STp` of the incoming state. -/
def STnNew (inp : Input) (i : Nat) (st : SubState) (a : Nat) : ℚ :=
  if a = 0 then st.STp 0
  else st.STn (a-1) + inp.h * (inp.J i - sumTo (fun q => inp.Q i q * PQnNew inp i st a q) inp.numflux)

/-- Combined per-age density (line 435): `pQn = np.diff(PQn, axis=0)`. -/
def pQn (inp : Input) (i : Nat) (st : SubState) (a q : Nat) : ℚ :=
  PQnNew inp i st (a+1) q - PQnNew inp i st a q

/-- Combined solute mass flux (line 437). -/
def mQn (inp : Input) (i : Nat) (st : SubState) (a q s : Nat) : ℚ :=
  (mQ1 inp i st a q s + 2 * mQ2 inp i st a q s + 2 * mQ3 inp i st a q s + mQ4 inp i st a q s) / 6

/-- Combined reaction flux (line 438). -/
def mRn (inp : Input) (i : Nat) (st : SubState) (a s : Nat) : ℚ :=
  (mR1 inp i st a s + 2 * mR2 inp i st a s + 2 * mR3 inp i st a s + mR4 inp i st a s) / 6

/-- Solute mass profile after a substep (lines 440-443):
`mSn = mSp + mRn * h - sum_q mQn * h`, plus `J * C_J * h` at the freshest
slot. -/
def mSnNew (inp : Input) (i : Nat) (st : SubState) (a s : Nat) : ℚ :=
  mSp st a s + mRn inp i st a s * inp.h
    - sumTo (fun q => mQn inp i st a q s) inp.numflux * inp.h
    + (if a = 0 then inp.J i * inp.C_J i s * inp.h else 0)

/-- Contribution of one substep to `C_Q[i,q,s]` (lines 444-445), guarded by
`Q[i,q] > 0`. -/
def cqInc (inp : Input) (i : Nat) (st : SubState) (q s : Nat) : ℚ :=
  if 0 < inp.Q i q then
    sumTo (fun a => mQn inp i st a q s) inp.M / inp.Q i q / (inp.n_substeps : ℚ)
  else 0

/-- One full substep of the RK4 loop (lines 365-445), as a state transformer. -/
def substep (inp : Input) (i : Nat) (st : SubState) : SubState :=
  { STp := st.STn
    STn := STnNew inp i st
    sTn := fun a => STnNew inp i st (a+1) - STnNew inp i st a
    mSn := mSnNew inp i st
    PQn := PQnNew inp i st }

/-- State after `k` substeps of timestep `i`, starting from `st0`. -/
def stAfter (inp : Input) (i : Nat) (st0 : SubState) : Nat → SubState
  | 0 => st0
  | k+1 => substep inp i (stAfter inp i st0 k)

/-- Initial substep-resolution storage profile (line 349):
`STn[1:] = np.cumsum(np.diff(ST_init).repeat(n_substeps)) / n_substeps`. -/
def STinit (inp : Input) (m : Nat) : ℚ :=
  sumTo (fun j => inp.ST_init (j / inp.n_substeps + 1) - inp.ST_init (j / inp.n_substeps)) m
    / (inp.n_substeps : ℚ)

/-- The state before the first substep of timestep 0 (lines 348-354): the
refined initial profile, its differences, `PQn = cdf_i(STn, 0)`, and the
refined initial solute mass when `CS_init` was supplied. -/
def initState (inp : Input) : SubState :=
  { STp := fun _ => 0
    STn := STinit inp
    sTn := fun a => STinit inp (a+1) - STinit inp a
    mSn := fun a s =>
      if inp.hasCS then
        (inp.CS_init (a / inp.n_substeps + 1) s * inp.ST_init (a / inp.n_substeps + 1)
          - inp.CS_init (a / inp.n_substeps) s * inp.ST_init (a / inp.n_substeps))
          / (inp.n_substeps : ℚ)
      else 0
    PQn := fun a q => inp.cdf q (STinit inp) 0 a }

/-- State at the start of timestep `i` (equivalently, after `i` timesteps of
`n_substeps` substeps each). -/
def stateAt (inp : Input) : Nat → SubState
  | 0 => initState inp
  | i+1 => stAfter inp i (stateAt inp i) inp.n_substeps

/-- Total contribution of the substeps of timestep `i` to row `a` of the
output column `PQ[:, i+1, q]` before the cumulative sum (lines 447-449):
row 1 receives `sum(pQn[:k+1, q]) / n_substeps` from substep `k`, and row
`a >= 2` receives the sum of its `n_substeps` constituent substep cells
`k+1+(a-2)*n_substeps .. k+(a-1)*n_substeps`, divided by `n_substeps`. -/
def PQaccRow (inp : Input) (i : Nat) (st0 : SubState) (a q : Nat) : ℚ :=
  if a = 0 then 0
  else if a = 1 then
    sumTo (fun k => sumTo (fun c => pQn inp i (stAfter inp i st0 k) c q) (k+1)
      / (inp.n_substeps : ℚ)) inp.n_substeps
  else if a ≤ inp.max_age then
    sumTo (fun k => sumTo (fun j => pQn inp i (stAfter inp i st0 k)
      (k+1+(a-2)*inp.n_substeps+j) q) inp.n_substeps
      / (inp.n_substeps : ℚ)) inp.n_substeps
  else 0

/-- Output column `PQ[:, i+1, q]` (line 460): cumulative sum over age of the
accumulated per-substep contributions (row 0 was never written and is 0). -/
def PQcol (inp : Input) (i : Nat) (st0 : SubState) (a q : Nat) : ℚ :=
  sumTo (fun b => PQaccRow inp i st0 b q) (a+1)

/-- Output array `ST[a, t]` (lines 356 and 459): every `n_substeps`-th entry
of the current substep-resolution profile. -/
def ST (inp : Input) (a t : Nat) : ℚ :=
  (stateAt inp t).STn (a * inp.n_substeps)

/-- Output array `PQ[a, t, q]` (lines 357 and 460). -/
def PQ (inp : Input) (a t q : Nat) : ℚ :=
  match t with
  | 0 => (initState inp).PQn (a * inp.n_substeps) q
  | i+1 => PQcol inp i (stateAt inp i) a q

/-- Output array `WaterBalance[a, i]` (lines 462-463). -/
def WaterBalance (inp : Input) (a i : Nat) : ℚ :=
  if a = 0 then
    inp.J i * inp.dt - ST inp 1 (i+1)
      - inp.dt * sumTo (fun q => inp.Q i q * (PQ inp 1 (i+1) q - PQ inp 0 (i+1) q)) inp.numflux
  else
    (ST inp a i - ST inp (a-1) i) - (ST inp (a+1) (i+1) - ST inp a (i+1))
      - inp.dt * sumTo (fun q => inp.Q i q * (PQ inp (a+1) (i+1) q - PQ inp a (i+1) q)) inp.numflux

/-- Output array `C_Q[i, q, s]` (lines 444-445 and 469-471): the per-substep
mass-flux contributions plus the unobserved-fraction correction
`alpha * C_old * (1 - PQ[max_age, i+1, q])`. -/
def C_Q (inp : Input) (i q s : Nat) : ℚ :=
  sumTo (fun k => cqInc inp i (stAfter inp i (stateAt inp i) k) q s) inp.n_substeps
    + inp.alpha i q s * inp.C_old s * (1 - PQ inp inp.max_age (i+1) q)

/-- The result mapping returned by a successful `_solve_RK4` run with full
outputs (restricted to the water-side arrays and `C_Q`, the ones the claims
constrain). -/
structure Outputs where
  out_ST : Nat → Nat → ℚ
  out_PQ : Nat → Nat → Nat → ℚ
  out_WB : Nat → Nat → ℚ
  out_CQ : Nat → Nat → Nat → ℚ

/-- Message of the `TypeError` raised by `len(ST_init)` at line 294 when
`ST_init` is `None` (the `solve` docstring promises a zeros default that is
never applied). -/
def errLenNone : String := "TypeError: object of type NoneType has no len()"

/-- Message of the `TypeError` raised by `C_old[s]` at line 471 when `C_old`
is `None` while solutes are present and full outputs are requested. -/
def errColdNone : String := "TypeError: NoneType object is not subscriptable"

/-- The fallible entry into `_solve_RK4`, with the two optional arguments
that the boundary validation in `solve` passes through unchecked.  Line 294
evaluates `len(ST_init)` before any `None` handling, so an omitted `ST_init`
raises; line 471 subscripts `C_old` for every solute whenever solutes are
present, full outputs are requested and at least one timestep runs, so an
omitted `C_old` raises there.  Otherwise the run completes and returns the
result mapping. -/
def runRK4 (inp : Input) (stInitO : Option (Nat → ℚ)) (cOldO : Option (Nat → ℚ))
    (full_outputs : Bool) : Except String Outputs :=
  match stInitO with
  | none => Except.error errLenNone
  | some st0 =>
    if 0 < inp.numsol ∧ full_outputs = true ∧ 0 < inp.nT ∧ cOldO.isNone = true then
      Except.error errColdNone
    else
      let inpFull : Input :=
        { inp with ST_init := st0, C_old := fun s => (cOldO.getD inp.C_old) s }
      Except.ok
        { out_ST := fun a t => ST inpFull a t
          out_PQ := fun a t q => PQ inpFull a t q
          out_WB := fun a i => WaterBalance inpFull a i
          out_CQ := fun i q s => C_Q inpFull i q s }

/-- Input exhibiting a negative returned storage entry: no inflow, one
strong outflow with a SAS function saturating at storage 1/20, and a small
initial storage profile. -/
def exIn1 : Input where
  numflux := 1
  numsol := 0
  nT := 1
  max_age := 2
  n_substeps := 1
  dt := 1
  J := fun _ => 0
  Q := fun _ _ => 10
  cdf := fun _ prof _ a => qmin 1 (20 * prof a)
  ST_init := fun a => if a = 0 then 0 else 1/10
  hasCS := false
  CS_init := fun _ _ => 0
  C_J := fun _ _ => 0
  alpha := fun _ _ _ => 1
  k1 := fun _ _ => 0
  C_eq := fun _ _ => 0
  C_old := fun _ => 5

/-- Input with a single identically-zero outflow column, one solute, a
nonzero initial storage profile and a nonzero unobserved-fraction
concentration `C_old = 5`. -/
def exIn2 : Input where
  numflux := 1
  numsol := 1
  nT := 1
  max_age := 1
  n_substeps := 1
  dt := 1
  J := fun _ => 1
  Q := fun _ _ => 0
  cdf := fun _ prof _ a => qmin 1 (prof a)
  ST_init := fun a => if a = 0 then 0 else 1
  hasCS := false
  CS_init := fun _ _ => 0
  C_J := fun _ _ => 0
  alpha := fun _ _ _ => 1
  k1 := fun _ _ => 0
  C_eq := fun _ _ => 0
  C_old := fun _ => 5

/-- Input on which the stage-3 cumulative distribution differs from the
stage-2 one at the freshest age: unit inflow into an initially empty store,
with a SAS function saturating at storage 1/20. -/
def exIn3 : Input where
  numflux := 1
  numsol := 0
  nT := 1
  max_age := 1
  n_substeps := 1
  dt := 1
  J := fun _ => 1
  Q := fun _ _ => 1
  cdf := fun _ prof _ a => qmin 1 (20 * prof a)
  ST_init := fun _ => 0
  hasCS := false
  CS_init := fun _ _ => 0
  C_J := fun _ _ => 0
  alpha := fun _ _ _ => 1
  k1 := fun _ _ => 0
  C_eq := fun _ _ => 0
  C_old := fun _ => 0

/-- Input with two substeps per timestep and a non-uniform initial profile,
used to exercise the substep-to-output aggregation and the refine-coarsen
round trip. -/
def exIn7 : Input where
  numflux := 1
  numsol := 0
  nT := 1
  max_age := 2
  n_substeps := 2
  dt := 1
  J := fun _ => 1
  Q := fun _ _ => 1
  cdf := fun _ prof _ a => qmin 1 (prof a / 5)
  ST_init := fun a => if a = 0 then 0 else if a = 1 then 3 else 4
  hasCS := false
  CS_init := fun _ _ => 0
  C_J := fun _ _ => 0
  alpha := fun _ _ _ => 1
  k1 := fun _ _ => 0
  C_eq := fun _ _ => 0
  C_old := fun _ => 0

/-- Input with one solute, used for the omitted-optional-argument runs. -/
def exIn9 : Input where
  numflux := 1
  numsol := 1
  nT := 1
  max_age := 1
  n_substeps := 1
  dt := 1
  J := fun _ => 1
  Q := fun _ _ => 1
  cdf := fun _ prof _ a => qmin 1 (prof a)
  ST_init := fun _ => 0
  hasCS := false
  CS_init := fun _ _ => 0
  C_J := fun _ _ => 1
  alpha := fun _ _ _ => 1
  k1 := fun _ _ => 0
  C_eq := fun _ _ => 0
  C_old := fun _ => 0

theorem qmax_eq_max (x y : ℚ) : qmax x y = max x y := by
  rw [qmax, max_def]

theorem sumTo_succ_sub (f : Nat → ℚ) (n : Nat) : sumTo f (n+1) - sumTo f n = f n := by
  simp [sumTo]

theorem sumTo_eq_zero (f : Nat → ℚ) (n : Nat) (h : ∀ j, j < n → f j = 0) : sumTo f n = 0 := by
  induction n with
  | zero => rfl
  | succ n ih =>
    rw [sumTo, h n (Nat.lt_succ_self n), ih (fun j hj => h j (Nat.lt_succ_of_lt hj)), add_zero]

theorem sumTo_congr (f g : Nat → ℚ) (n : Nat) (h : ∀ j, j < n → f j = g j) :
    sumTo f n = sumTo g n := by
  induction n with
  | zero => rfl
  | succ n ih =>
    rw [sumTo, sumTo, h n (Nat.lt_succ_self n), ih (fun j hj => h j (Nat.lt_succ_of_lt hj))]

theorem sumTo_const (x : ℚ) (n : Nat) : sumTo (fun _ => x) n = (n : ℚ) * x := by
  induction n with
  | zero => simp [sumTo]
  | succ n ih => rw [sumTo, ih]; push_cast; ring

theorem sumTo_add_block (f : Nat → ℚ) (m c : Nat) :
    sumTo f (m + c) = sumTo f m + sumTo (fun r => f (m + r)) c := by
  induction c with
  | zero => simp [sumTo]
  | succ c ih => rw [← Nat.add_assoc, sumTo, sumTo, ih]; ring

/-- One refinement block of the initial-profile cumulative sum: the first
`a * n_substeps` refined increments sum to `n_substeps` times the first `a`
coarse increments, which telescope. -/
theorem STinit_blocks (inp : Input) (hn : 0 < inp.n_substeps) (a : Nat) :
    sumTo (fun j => inp.ST_init (j / inp.n_substeps + 1) - inp.ST_init (j / inp.n_substeps))
      (a * inp.n_substeps)
    = (inp.n_substeps : ℚ) * (inp.ST_init a - inp.ST_init 0) := by
  induction a with
  | zero => simp [sumTo]
  | succ a ih =>
    rw [Nat.succ_mul, sumTo_add_block, ih]
    have hcell : ∀ r, r < inp.n_substeps →
        (fun r => inp.ST_init ((a * inp.n_substeps + r) / inp.n_substeps + 1)
          - inp.ST_init ((a * inp.n_substeps + r) / inp.n_substeps)) r
        = inp.ST_init (a+1) - inp.ST_init a := by
      intro r hr
      have hdiv : (a * inp.n_substeps + r) / inp.n_substeps = a := by
        rw [Nat.mul_comm a inp.n_substeps, Nat.mul_add_div hn, Nat.div_eq_of_lt hr, Nat.add_zero]
      simp only [hdiv]
    rw [sumTo_congr _ _ _ hcell, sumTo_const]
    ring

/-- Claim C1, counterexample: on `exIn1` the returned age-ranked storage has
`ST[2,1] = -49/10 < 0`.  The final advance of the true profile (line 433) is
not clamped, so a SAS function that is monotone, bounded in [0,1] and 0 at
zero-age storage still drives a returned storage entry negative. -/
theorem ST_negative_at_line433 : ST exIn1 2 1 < 0 := by with_unfolding_all decide

/-- Claim C1, amended: non-negativity is enforced only on the trial storage
profiles produced during stage evaluation (the `max(0, .)` clamps at lines
381, 396 and 411); every trial profile entry is non-negative at every stage
of every substep. -/
theorem trial_profiles_nonneg :
    ∀ (inp : Input) (i : Nat) (st : SubState) (a : Nat),
    0 ≤ STt1 inp i st a ∧ 0 ≤ STt2 inp i st a ∧ 0 ≤ STt3 inp i st a := by
  intro inp i st a
  refine ⟨?_, ?_, ?_⟩
  · rw [STt1, qmax_eq_max]; exact le_max_left 0 _
  · rw [STt2, qmax_eq_max]; exact le_max_left 0 _
  · rw [STt3, qmax_eq_max]; exact le_max_left 0 _

/-- Claim C2, counterexample: on `exIn2` the single outflow column is zero at
every time (`nT = 1`), yet `C_Q[0,0,0] = alpha * C_old = 5 /= 0` because the
unobserved-fraction correction (line 471) is applied even to zero-flow
outflows, and `PQ[1,0,0] = 1 /= 0` because the time-0 column is the SAS
function evaluated at the initial profile (line 350), not forced to zero. -/
theorem zero_flow_C_Q_nonzero :
    exIn2.Q 0 0 = 0 ∧ C_Q exIn2 0 0 0 ≠ 0 ∧ PQ exIn2 1 0 0 ≠ 0 := by
  with_unfolding_all decide

/-- Claim C2, amended: for an outflow with `Q[i,q] = 0`, the combined
per-substep distribution is forced to exactly 0 (lines 430-432), hence the
output column `PQ[:, i+1, q]` is identically 0, and the direct mass-flux
contribution to `C_Q` vanishes (guard at line 444), leaving exactly the
unobserved-fraction term `alpha[i,q,s] * C_old[s]`; no division by the zero
flow is performed. -/
theorem zero_flow_forcing :
    ∀ (inp : Input) (q i : Nat), inp.Q i q = 0 →
    ∀ (st : SubState) (a s : Nat),
      PQnNew inp i st a q = 0 ∧ PQ inp a (i+1) q = 0
        ∧ C_Q inp i q s = inp.alpha i q s * inp.C_old s := by
  intro inp q i h st a s
  have hP : ∀ (st' : SubState) (a' : Nat), PQnNew inp i st' a' q = 0 := by
    intro st' a'; rw [PQnNew, if_pos h]
  have hp : ∀ (st' : SubState) (a' : Nat), pQn inp i st' a' q = 0 := by
    intro st' a'; rw [pQn, hP, hP, sub_zero]
  have hrow : ∀ b, PQaccRow inp i (stateAt inp i) b q = 0 := by
    intro b
    by_cases h0 : b = 0
    · rw [PQaccRow, if_pos h0]
    · by_cases hb1 : b = 1
      · rw [PQaccRow, if_neg h0, if_pos hb1]
        exact sumTo_eq_zero _ _ (fun k _ => by
          rw [sumTo_eq_zero _ _ (fun c _ => hp _ c), zero_div])
      · by_cases hb2 : b ≤ inp.max_age
        · rw [PQaccRow, if_neg h0, if_neg hb1, if_pos hb2]
          exact sumTo_eq_zero _ _ (fun k _ => by
            rw [sumTo_eq_zero _ _ (fun j _ => hp _ _), zero_div])
        · rw [PQaccRow, if_neg h0, if_neg hb1, if_neg hb2]
  have hPQ : ∀ a', PQ inp a' (i+1) q = 0 := by
    intro a'
    show PQcol inp i (stateAt inp i) a' q = 0
    rw [PQcol]
    exact sumTo_eq_zero _ _ (fun b _ => hrow b)
  refine ⟨hP st a, hPQ a, ?_⟩
  rw [C_Q, hPQ inp.max_age,
    sumTo_eq_zero _ _ (fun k _ => by rw [cqInc, if_neg (by rw [h]; exact lt_irrefl 0)])]
  ring

/-- Claim C2, witness for the amended statement at the concrete zero-flow
input `exIn2`. -/
theorem zero_flow_forcing_witness :
    exIn2.Q 0 0 = 0
      ∧ (PQnNew exIn2 0 (initState exIn2) 1 0 = 0 ∧ PQ exIn2 1 1 0 = 0
          ∧ C_Q exIn2 0 0 0 = exIn2.alpha 0 0 0 * exIn2.C_old 0) :=
  ⟨rfl, zero_flow_forcing exIn2 0 0 rfl (initState exIn2) 1 0⟩

/-- Claim C3: at the failing input `exIn3`, the stage-3 per-age density at
the freshest age is the stage-2 cumulative head `PQ2[0,:] = 1` (line 407),
not the stage-3 cumulative head `PQ3[0,:] = 0` that the forward-difference
rule of stages 1-2 would give; the same copy of `PQ2[0,:]` appears at stage
4 (line 422). -/
theorem stage3_density_uses_stage2_head :
    pQt3 exIn3 0 (initState exIn3) 0 0 = 1 ∧ PQ3 exIn3 0 (initState exIn3) 0 0 = 0
      ∧ PQ2 exIn3 0 (initState exIn3) 0 0 = 1 := by
  with_unfolding_all decide

/-- Claim C4: at every RK4 stage the per-age solute flux is the guarded
quotient `storedMass * alpha * Q * density / ageIncrement`, selected to be
exactly 0 wherever the trial age increment is not strictly positive (the
`np.where(sTt>0, ..., 0)` at lines 380, 395, 410 and 425). -/
theorem stage_flux_division_guard :
    ∀ (inp : Input) (i : Nat) (st : SubState) (a q s : Nat),
    (mQ1 inp i st a q s = if 0 < sTt1 inp i st a then
        mSp st a s * inp.alpha i q s * inp.Q i q * pQt1 inp i st a q / sTt1 inp i st a else 0)
    ∧ (mQ2 inp i st a q s = if 0 < sTt2 inp i st a then
        mSt1 inp i st a s * inp.alpha i q s * inp.Q i q * pQt2 inp i st a q / sTt2 inp i st a else 0)
    ∧ (mQ3 inp i st a q s = if 0 < sTt3 inp i st a then
        mSt2 inp i st a s * inp.alpha i q s * inp.Q i q * pQt3 inp i st a q / sTt3 inp i st a else 0)
    ∧ (mQ4 inp i st a q s = if 0 < sTt4 inp i st a then
        mSt3 inp i st a s * inp.alpha i q s * inp.Q i q * pQt4 inp i st a q / sTt4 inp i st a else 0) :=
  fun _ _ _ _ _ _ => ⟨rfl, rfl, rfl, rfl⟩

/-- Claim C5: each stage reaction term is `k1 * (C_eq * ageIncrement -
storedMass)` for that stage, and the inflowing solute mass `J * C_J * h` is
injected at the freshest age slot with weight `h/2` in the trial-mass
updates of stages 1 and 2 and with full weight `h` in stage 3; no injection
occurs at any older age slot. -/
theorem solute_stage_updates :
    ∀ (inp : Input) (i : Nat) (st : SubState) (a s : Nat),
    (mR1 inp i st a s = inp.k1 i s * (inp.C_eq i s * sTt1 inp i st a - mSp st a s))
    ∧ (mR2 inp i st a s = inp.k1 i s * (inp.C_eq i s * sTt2 inp i st a - mSt1 inp i st a s))
    ∧ (mR3 inp i st a s = inp.k1 i s * (inp.C_eq i s * sTt3 inp i st a - mSt2 inp i st a s))
    ∧ (mR4 inp i st a s = inp.k1 i s * (inp.C_eq i s * sTt4 inp i st a - mSt3 inp i st a s))
    ∧ (mSt1 inp i st 0 s = mSp st 0 s
        - sumTo (fun q => mQ1 inp i st 0 q s) inp.numflux * (inp.h / 2)
        + mR1 inp i st 0 s * (inp.h / 2) + inp.J i * inp.C_J i s * (inp.h / 2))
    ∧ (mSt2 inp i st 0 s = mSp st 0 s
        - sumTo (fun q => mQ2 inp i st 0 q s) inp.numflux * (inp.h / 2)
        + mR2 inp i st 0 s * (inp.h / 2) + inp.J i * inp.C_J i s * (inp.h / 2))
    ∧ (mSt3 inp i st 0 s = mSp st 0 s
        - sumTo (fun q => mQ3 inp i st 0 q s) inp.numflux * (inp.h / 2)
        + mR3 inp i st 0 s * (inp.h / 2) + inp.J i * inp.C_J i s * inp.h)
    ∧ (mSt1 inp i st (a+1) s = mSp st (a+1) s
        - sumTo (fun q => mQ1 inp i st (a+1) q s) inp.numflux * (inp.h / 2)
        + mR1 inp i st (a+1) s * (inp.h / 2))
    ∧ (mSt2 inp i st (a+1) s = mSp st (a+1) s
        - sumTo (fun q => mQ2 inp i st (a+1) q s) inp.numflux * (inp.h / 2)
        + mR2 inp i st (a+1) s * (inp.h / 2))
    ∧ (mSt3 inp i st (a+1) s = mSp st (a+1) s
        - sumTo (fun q => mQ3 inp i st (a+1) q s) inp.numflux * (inp.h / 2)
        + mR3 inp i st (a+1) s * (inp.h / 2)) := by
  intro inp i st a s
  refine ⟨rfl, rfl, rfl, rfl, ?_, ?_, ?_, ?_, ?_, ?_⟩
  · rw [mSt1, if_pos rfl]
  · rw [mSt2, if_pos rfl]
  · rw [mSt3, if_pos rfl]
  · rw [mSt1, if_neg (Nat.succ_ne_zero a), add_zero]
  · rw [mSt2, if_neg (Nat.succ_ne_zero a), add_zero]
  · rw [mSt3, if_neg (Nat.succ_ne_zero a), add_zero]

/-- Claim C6: at each of the three trial-profile updates the trial storage
profile is `max(0, previousProfile + (J - sum_q Q * cumulativeDistribution)
* h/2)` elementwise (lines 381, 396, 411), where `previousProfile` is the
swapped-in previous true profile `STp`; in particular every trial profile
entry is non-negative. -/
theorem trial_storage_update_clamped :
    ∀ (inp : Input) (i : Nat) (st : SubState) (a : Nat),
    (STt1 inp i st a = max 0 (st.STn a
        + (inp.J i - sumTo (fun q => inp.Q i q * PQ1 inp i st a q) inp.numflux) * (inp.h / 2))
      ∧ STt2 inp i st a = max 0 (st.STn a
        + (inp.J i - sumTo (fun q => inp.Q i q * PQ2 inp i st a q) inp.numflux) * (inp.h / 2))
      ∧ STt3 inp i st a = max 0 (st.STn a
        + (inp.J i - sumTo (fun q => inp.Q i q * PQ3 inp i st a q) inp.numflux) * (inp.h / 2)))
    ∧ (0 ≤ STt1 inp i st a ∧ 0 ≤ STt2 inp i st a ∧ 0 ≤ STt3 inp i st a) := by
  intro inp i st a
  refine ⟨⟨?_, ?_, ?_⟩, ?_, ?_, ?_⟩
  · rw [STt1, qmax_eq_max]
  · rw [STt2, qmax_eq_max]
  · rw [STt3, qmax_eq_max]
  · rw [STt1, qmax_eq_max]; exact le_max_left 0 _
  · rw [STt2, qmax_eq_max]; exact le_max_left 0 _
  · rw [STt3, qmax_eq_max]; exact le_max_left 0 _

/-- Claim C7: for every output age `1 <= a <= max_age`, the increment of the
cumulative output column `PQ[:, i+1, q]` at age `a` equals the sum over the
`n_substeps` substeps of the per-substep density contributions over the
cells owned by age `a` (cells `0..k` for the newest bin `a = 1` after
substep `k`; the `n_substeps` cells starting at `k+1+(a-2)*n_substeps` for
`a >= 2`), divided by `n_substeps`. -/
theorem substep_aggregation_consistency :
    ∀ (inp : Input) (i q a : Nat), 1 ≤ a → a ≤ inp.max_age →
    PQ inp a (i+1) q - PQ inp (a-1) (i+1) q =
      if a = 1 then
        sumTo (fun k => sumTo (fun c => pQn inp i (stAfter inp i (stateAt inp i) k) c q) (k+1)
          / (inp.n_substeps : ℚ)) inp.n_substeps
      else
        sumTo (fun k => sumTo (fun j => pQn inp i (stAfter inp i (stateAt inp i) k)
          (k+1+(a-2)*inp.n_substeps+j) q) inp.n_substeps
          / (inp.n_substeps : ℚ)) inp.n_substeps := by
  intro inp i q a h1 h2
  obtain ⟨b, rfl⟩ : ∃ b, a = b + 1 := ⟨a - 1, (Nat.succ_pred_eq_of_pos h1).symm⟩
  show PQcol inp i (stateAt inp i) (b+1) q - PQcol inp i (stateAt inp i) (b+1-1) q = _
  have hred : b + 1 - 1 = b := rfl
  rw [hred, PQcol, PQcol, sumTo_succ_sub]
  cases b with
  | zero =>
    rw [if_pos rfl, PQaccRow, if_neg Nat.one_ne_zero, if_pos rfl]
  | succ c =>
    rw [if_neg (by omega : ¬ c + 1 + 1 = 1), PQaccRow,
      if_neg (by omega : ¬ c + 1 + 1 = 0), if_neg (by omega : ¬ c + 1 + 1 = 1), if_pos h2]

/-- Claim C7, witness at the two-substep input `exIn7` with output age 2. -/
theorem substep_aggregation_consistency_witness :
    1 ≤ 2 ∧ 2 ≤ exIn7.max_age ∧
    (PQ exIn7 2 1 0 - PQ exIn7 1 1 0 =
      if 2 = 1 then
        sumTo (fun k => sumTo (fun c => pQn exIn7 0 (stAfter exIn7 0 (stateAt exIn7 0) k) c 0) (k+1)
          / (exIn7.n_substeps : ℚ)) exIn7.n_substeps
      else
        sumTo (fun k => sumTo (fun j => pQn exIn7 0 (stAfter exIn7 0 (stateAt exIn7 0) k)
          (k+1+(2-2)*exIn7.n_substeps+j) 0) exIn7.n_substeps
          / (exIn7.n_substeps : ℚ)) exIn7.n_substeps) :=
  ⟨by decide, by decide, substep_aggregation_consistency exIn7 0 0 2 (by decide) (by decide)⟩

/-- Claim C8: the water-balance residual (lines 462-463) is computed exactly
as the age-`a` storage increment at time `i`, minus the age-`(a+1)` storage
increment at time `i+1`, minus `dt` times the flow-weighted increment of
`PQ` at time `i+1`; and at age 0 as `J*dt - ST[1,i+1] - dt * sum_q Q *
(PQ[1,i+1,q] - PQ[0,i+1,q])`. -/
theorem water_balance_formula :
    ∀ (inp : Input) (a i : Nat), 1 ≤ a → a < inp.max_age → i < inp.nT →
    (WaterBalance inp a i =
        (ST inp a i - ST inp (a-1) i) - (ST inp (a+1) (i+1) - ST inp a (i+1))
          - inp.dt * sumTo (fun q => inp.Q i q * (PQ inp (a+1) (i+1) q - PQ inp a (i+1) q))
              inp.numflux)
    ∧ WaterBalance inp 0 i =
        inp.J i * inp.dt - ST inp 1 (i+1)
          - inp.dt * sumTo (fun q => inp.Q i q * (PQ inp 1 (i+1) q - PQ inp 0 (i+1) q))
              inp.numflux := by
  intro inp a i h1 _ _
  constructor
  · rw [WaterBalance, if_neg (by omega : ¬ a = 0)]
  · rw [WaterBalance, if_pos rfl]

/-- Claim C8, witness at `exIn1` with age 1 and timestep 0. -/
theorem water_balance_formula_witness :
    (1 ≤ 1 ∧ 1 < exIn1.max_age ∧ 0 < exIn1.nT) ∧
    ((WaterBalance exIn1 1 0 =
        (ST exIn1 1 0 - ST exIn1 0 0) - (ST exIn1 2 1 - ST exIn1 1 1)
          - exIn1.dt * sumTo (fun q => exIn1.Q 0 q * (PQ exIn1 2 1 q - PQ exIn1 1 1 q))
              exIn1.numflux)
    ∧ WaterBalance exIn1 0 0 =
        exIn1.J 0 * exIn1.dt - ST exIn1 1 1
          - exIn1.dt * sumTo (fun q => exIn1.Q 0 q * (PQ exIn1 1 1 q - PQ exIn1 0 1 q))
              exIn1.numflux) :=
  ⟨⟨Nat.le_refl 1, by decide, by decide⟩,
    water_balance_formula exIn1 1 0 (Nat.le_refl 1) (by decide) (by decide)⟩

/-- Claim C9: at inputs accepted by the boundary validation of `solve`, the
numerical core nevertheless raises.  Omitting `ST_init` makes line 294
evaluate `len(None)` and raise a `TypeError`; with solutes present and full
outputs, omitting `C_old` makes line 471 subscript `None` and raise; with
both supplied the run completes and returns the result mapping. -/
theorem rk4_raises_on_omitted_optionals :
    runRK4 exIn9 none (some (fun _ => 0)) true = Except.error errLenNone
    ∧ runRK4 exIn9 (some exIn9.ST_init) none true = Except.error errColdNone
    ∧ (match runRK4 exIn9 (some exIn9.ST_init) (some exIn9.C_old) true with
       | Except.ok _ => true
       | Except.error _ => false) = true := by
  refine ⟨rfl, rfl, rfl⟩

/-- Claim C10: with a supplied initial profile whose first entry is 0, the
first output column reproduces the initial condition exactly: refining the
age increments to substep resolution (line 349) and sampling every
`n_substeps`-th entry of the cumulative sum (line 356) is the identity on
`ST_init`. -/
theorem initial_profile_round_trip :
    ∀ (inp : Input) (a : Nat), inp.ST_init 0 = 0 → 1 ≤ inp.n_substeps → a ≤ inp.max_age →
    ST inp a 0 = inp.ST_init a := by
  intro inp a h0 hn _
  have hn0 : 0 < inp.n_substeps := hn
  have hne : (inp.n_substeps : ℚ) ≠ 0 := Nat.cast_ne_zero.mpr (Nat.pos_iff_ne_zero.mp hn0)
  show STinit inp (a * inp.n_substeps) = inp.ST_init a
  rw [STinit, STinit_blocks inp hn0 a, h0, sub_zero, mul_div_cancel_left₀ _ hne]

/-- Claim C10, witness at the two-substep input `exIn7` with age 2. -/
theorem initial_profile_round_trip_witness :
    exIn7.ST_init 0 = 0 ∧ 1 ≤ exIn7.n_substeps ∧ 2 ≤ exIn7.max_age
      ∧ ST exIn7 2 0 = exIn7.ST_init 2 :=
  ⟨rfl, by decide, by decide, initial_profile_round_trip exIn7 2 rfl (by decide) (by decide)⟩

end RSAS
